import Mathlib

set_option maxHeartbeats 1000000

/-!
Shallow embedding of the x-pack apm-server `main.go` (src/unnamed/part_000):
processor construction (`newProcessors`, `newTailSamplingProcessor`), the
badger/storage process-wide singletons (`getBadgerDB`, `getStorage`), the
batch-processor chain built by `wrapServer`, and the start/stop discipline of
`runServerWithProcessors` as a trace semantics.

Constructors that live outside src/ (txmetrics.NewAggregator,
spanmetrics.NewAggregator, sampling.NewProcessor, eventstorage.OpenBadger) are
abstracted as oracle fields of `Env`/`ServerParams`, exactly as the source code
consumes them; values of Go `float64` configuration fields are only copied,
never computed with, and are carried as `Rat`.
-/

namespace ApmServerMain

/-- Go errors as consumed by this file. `Err.wrap ctx cause` models
`errors.Wrap(f)(cause, ctx)` from github.com/pkg/errors: an error whose message
is prefixed by `ctx` and whose cause (`errors.Unwrap`) is `cause`. -/
inductive Err where
  | base (msg : String) : Err
  | wrap (ctx : String) (cause : Err) : Err
deriving DecidableEq

/-- The cause of a wrapped error, as `errors.Unwrap` would return it. -/
def Err.cause : Err → Option Err
  | Err.base _ => none
  | Err.wrap _ e => some e

/-- A model.Batch: an ordered sequence of events. Events are opaque to the
code in this file, so they are carried as `Nat` tokens. -/
abbrev Batch := List Nat

/-- A model.BatchProcessor: `ProcessBatch(ctx, *Batch) error`, with in-place
batch mutation rendered as state passing. -/
abbrev BatchProc := Batch → Except Err Batch

/-- An elasticsearch.Client handle; opaque to this file. -/
abbrev ESClient := Nat

/-- A *badger.DB handle; pointer identity is rendered as the `id` value. -/
structure BadgerDB where
  id : Nat
deriving DecidableEq

/-- Modelled from the spec: the pluggable storage codec; `eventstorage.JSONCodec`
is the only codec the source instantiates. -/
inductive Codec where
  | json
deriving DecidableEq

/-- Modelled from the spec: the sharded read-writer facade produced by
`eventstorage.New(db, codec).NewShardedReadWriter()` (eventstorage is not under
src/). It is determined by the wrapped DB handle and the codec; identity of the
facade is rendered as equality of this record. -/
structure ShardedReadWriter where
  db : BadgerDB
  codec : Codec
deriving DecidableEq

/-- Modelled from the spec: a monitoring registry of the elastic-agent-libs
monitoring package (not under src/): a finite map from metric name to the
registered collector, rendered as an association list. The collector function
(`CollectMonitoring`) is carried as an opaque `Nat` handle. -/
structure Registry where
  entries : List (String × Nat)
deriving DecidableEq

/-- Modelled from the spec: `Registry.Remove(name)` deletes the named metric;
removing an absent name is a no-op. -/
def Registry.remove (r : Registry) (name : String) : Registry :=
  ⟨r.entries.filter (fun e => e.1 != name)⟩

/-- Modelled from the spec: `monitoring.NewFunc(registry, name, f, ...)`
registers `f` under `name` and panics when the name is already registered.
The panic is rendered as an `Except.error`. -/
def registryNewFunc (r : Registry) (name : String) (f : Nat) : Except Err Registry :=
  if r.entries.any (fun e => e.1 == name) then
    Except.error (Err.base "metric already registered")
  else
    Except.ok ⟨(name, f) :: r.entries⟩

/-- Whether a metric name is registered. -/
def Registry.contains (r : Registry) (name : String) : Bool :=
  r.entries.any (fun e => e.1 == name)

/-- float64 configuration values (sample rates, decay factors): only copied by
the embedded code, never computed with. -/
abbrev SampleRate := Rat

/-- config.TailSamplingPolicy.Service criteria. -/
structure TailSamplingPolicyService where
  name : String
  environment : String
deriving DecidableEq

/-- config.TailSamplingPolicy.Trace criteria. -/
structure TailSamplingPolicyTrace where
  name : String
  outcome : String
deriving DecidableEq

/-- config.TailSamplingPolicy. -/
structure TailSamplingPolicy where
  service : TailSamplingPolicyService
  trace : TailSamplingPolicyTrace
  sampleRate : SampleRate
deriving DecidableEq

/-- The Elasticsearch output configuration handed to the client factory; only
`CompressionLevel` is read by the embedded code, the remaining fields are
carried opaquely in `rest`. -/
structure ESOutputConfig where
  compressionLevel : Int
  rest : Nat
deriving DecidableEq

/-- config.Sampling.Tail (durations as `Int` nanoseconds). -/
structure TailSamplingConfig where
  enabled : Bool
  policies : List TailSamplingPolicy
  esConfig : ESOutputConfig
  interval : Int
  ingestRateDecayFactor : SampleRate
  storageGCInterval : Int
  storageLimitParsed : Nat
  ttl : Int
deriving DecidableEq

/-- config.Aggregation.Transactions. -/
structure TransactionAggregationConfig where
  maxTransactionGroups : Nat
  interval : Int
  hdrHistogramSignificantFigures : Int
deriving DecidableEq

/-- config.Aggregation.ServiceDestinations. -/
structure ServiceDestinationAggregationConfig where
  interval : Int
  maxGroups : Nat
deriving DecidableEq

/-- config.Aggregation. -/
structure AggregationConfig where
  transactions : TransactionAggregationConfig
  serviceDestinations : ServiceDestinationAggregationConfig
deriving DecidableEq

/-- config.Sampling. -/
structure SamplingSection where
  tail : TailSamplingConfig
deriving DecidableEq

/-- The parts of config.Config read by this file. -/
structure Config where
  aggregation : AggregationConfig
  sampling : SamplingSection
  shutdownTimeout : Int
deriving DecidableEq

/-- beater.ServerParams, restricted to the fields this file reads. `uuid` is
`args.UUID.String()`; `nameSpace` is `args.Namespace`. The
`NewElasticsearchClient` factory is a field of ServerParams in the source and
is kept as a function field here. -/
structure ServerParams where
  config : Config
  batchProcessor : BatchProc
  nameSpace : String
  uuid : String
  newElasticsearchClient : ESOutputConfig → Except Err ESClient

/-- txmetrics.AggregatorConfig as built at the `txmetrics.NewAggregator` call. -/
structure TxAggregatorConfig where
  batchProcessor : BatchProc
  maxTransactionGroups : Nat
  metricsInterval : Int
  hdrHistogramSignificantFigures : Int

/-- spanmetrics.AggregatorConfig as built at the `spanmetrics.NewAggregator`
call. -/
structure SpanAggregatorConfig where
  batchProcessor : BatchProc
  interval : Int
  maxGroups : Nat

/-- sampling.PolicyCriteria. -/
structure PolicyCriteria where
  serviceName : String
  serviceEnvironment : String
  traceName : String
  traceOutcome : String
deriving DecidableEq

/-- sampling.Policy. -/
structure Policy where
  policyCriteria : PolicyCriteria
  sampleRate : SampleRate
deriving DecidableEq

/-- sampling.LocalSamplingConfig. -/
structure LocalSamplingConfig where
  flushInterval : Int
  maxDynamicServices : Nat
  policies : List Policy
  ingestRateDecayFactor : SampleRate
deriving DecidableEq

/-- sampling.DataStreamConfig; `nameSpace` is the Go `Namespace` field. -/
structure DataStreamConfig where
  type : String
  dataset : String
  nameSpace : String
deriving DecidableEq

/-- sampling.RemoteSamplingConfig. -/
structure RemoteSamplingConfig where
  compressionLevel : Int
  elasticsearch : ESClient
  sampledTracesDataStream : DataStreamConfig
deriving DecidableEq

/-- sampling.StorageConfig. -/
structure StorageConfig where
  db : BadgerDB
  storage : ShardedReadWriter
  storageDir : String
  storageGCInterval : Int
  storageLimit : Nat
  ttl : Int
deriving DecidableEq

/-- sampling.Config as handed to sampling.NewProcessor. -/
structure SamplingConfig where
  beatID : String
  batchProcessor : BatchProc
  localSamplingConfig : LocalSamplingConfig
  remoteSamplingConfig : RemoteSamplingConfig
  storageConfig : StorageConfig

/-- A processor built by one of the constructors: its ProcessBatch behaviour
and an opaque handle standing for its `CollectMonitoring` method. `Run`/`Stop`
are modelled by the lifecycle trace semantics below. -/
structure Processor where
  processBatch : BatchProc
  collectMonitoring : Nat

/-- namedProcessor. -/
structure NamedProcessor where
  name : String
  processor : Processor

/-- The constructors this file calls but whose bodies live outside src/
(txmetrics, spanmetrics, sampling, eventstorage packages), plus the resolved
data directory of the `paths` package; abstracted as oracles, exactly at the
call boundaries of the source. -/
structure Env where
  newTxAggregator : TxAggregatorConfig → Except Err Processor
  newSpanAggregator : SpanAggregatorConfig → Except Err Processor
  newSamplingProcessor : SamplingConfig → Except Err Processor
  openBadger : String → Int → Except Err BadgerDB
  dataDir : String

/-- The package-level mutable state of main.go: the badger/storage singletons
(`badgerDB`, `storage` globals) and the two monitoring registries
(`apm-server.aggregation`, `apm-server.sampling`). -/
structure GlobalState where
  badgerDB : Option BadgerDB
  storage : Option ShardedReadWriter
  aggregationRegistry : Registry
  samplingRegistry : Registry

/-- `tailSamplingStorageDir` constant. -/
def tailSamplingStorageDir : String := "tail_sampling"

/-- Modelled from the spec: `paths.Resolve(paths.Data, dir)` (elastic-agent-libs
paths, not under src/) resolves `dir` under the configured data directory. -/
def pathsResolve (dataDir dir : String) : String := dataDir ++ "/" ++ dir

/-- `getBadgerDB` (main.go lines 159-170): opens the badger database only when
the global handle is nil, otherwise returns the existing handle. -/
def getBadgerDB (env : Env) (st : GlobalState) (storageDir : String) :
    Except Err (BadgerDB × GlobalState) :=
  match st.badgerDB with
  | some db => Except.ok (db, st)
  | none =>
    match env.openBadger storageDir (-1) with
    | Except.error e => Except.error e
    | Except.ok db => Except.ok (db, { st with badgerDB := some db })

/-- `getStorage` (main.go lines 172-180): constructs the sharded read-writer
(with `eventstorage.JSONCodec`) only when the global is nil. -/
def getStorage (st : GlobalState) (db : BadgerDB) :
    ShardedReadWriter × GlobalState :=
  match st.storage with
  | some s => (s, st)
  | none =>
    let s : ShardedReadWriter := { db := db, codec := Codec.json }
    (s, { st with storage := some s })

/-- The txmetrics.AggregatorConfig literal of main.go lines 66-71. -/
def txAggregatorConfigOf (args : ServerParams) : TxAggregatorConfig :=
  { batchProcessor := args.batchProcessor
    maxTransactionGroups := args.config.aggregation.transactions.maxTransactionGroups
    metricsInterval := args.config.aggregation.transactions.interval
    hdrHistogramSignificantFigures :=
      args.config.aggregation.transactions.hdrHistogramSignificantFigures }

/-- The spanmetrics.AggregatorConfig literal of main.go lines 81-85. -/
def spanAggregatorConfigOf (args : ServerParams) : SpanAggregatorConfig :=
  { batchProcessor := args.batchProcessor
    interval := args.config.aggregation.serviceDestinations.interval
    maxGroups := args.config.aggregation.serviceDestinations.maxGroups }

/-- The policy translation loop of main.go lines 117-128. -/
def tailSamplingPolicies (ps : List TailSamplingPolicy) : List Policy :=
  ps.map (fun p =>
    { policyCriteria :=
        { serviceName := p.service.name
          serviceEnvironment := p.service.environment
          traceName := p.trace.name
          traceOutcome := p.trace.outcome }
      sampleRate := p.sampleRate })

/-- The sampling.Config literal of main.go lines 130-156. -/
def tailSamplingConfigBuilt (args : ServerParams) (es : ESClient) (db : BadgerDB)
    (readWriters : ShardedReadWriter) (storageDir : String) : SamplingConfig :=
  { beatID := args.uuid
    batchProcessor := args.batchProcessor
    localSamplingConfig :=
      { flushInterval := args.config.sampling.tail.interval
        maxDynamicServices := 1000
        policies := tailSamplingPolicies args.config.sampling.tail.policies
        ingestRateDecayFactor := args.config.sampling.tail.ingestRateDecayFactor }
    remoteSamplingConfig :=
      { compressionLevel := args.config.sampling.tail.esConfig.compressionLevel
        elasticsearch := es
        sampledTracesDataStream :=
          { type := "traces"
            dataset := "apm.sampled"
            nameSpace := args.nameSpace } }
    storageConfig :=
      { db := db
        storage := readWriters
        storageDir := storageDir
        storageGCInterval := args.config.sampling.tail.storageGCInterval
        storageLimit := args.config.sampling.tail.storageLimitParsed
        ttl := args.config.sampling.tail.ttl } }

/-- `newTailSamplingProcessor` (main.go lines 103-157). The assignment to the
`badgerDB` global on line 111 is rendered as the `st2` update. -/
def newTailSamplingProcessor (env : Env) (st : GlobalState) (args : ServerParams) :
    Except Err (Processor × GlobalState) :=
  let tailSamplingConfig := args.config.sampling.tail
  match args.newElasticsearchClient tailSamplingConfig.esConfig with
  | Except.error e =>
      Except.error (Err.wrap "failed to create Elasticsearch client for tail-sampling" e)
  | Except.ok es =>
    let storageDir := pathsResolve env.dataDir tailSamplingStorageDir
    match getBadgerDB env st storageDir with
    | Except.error e => Except.error (Err.wrap "failed to get Badger database" e)
    | Except.ok (db, st1) =>
      let st2 := { st1 with badgerDB := some db }
      let rw := getStorage st2 db
      Except.map (fun p => (p, rw.2))
        (env.newSamplingProcessor (tailSamplingConfigBuilt args es db rw.1 storageDir))

/-- Processor name constant of main.go line 64. -/
def txProcessorName : String := "transaction metrics aggregation"

/-- Processor name constant of main.go line 79. -/
def spanProcessorName : String := "service destinations aggregation"

/-- Processor name constant of main.go line 91. -/
def tailProcessorName : String := "tail sampler"

/-- `newProcessors` (main.go lines 62-101): transaction-metrics aggregator
(with txmetrics registration), service-destination aggregator, and, when tail
sampling is enabled, the tail sampler (with tail registration). A
`monitoring.NewFunc` panic is rendered as an error. -/
def newProcessors (env : Env) (st : GlobalState) (args : ServerParams) :
    Except Err (List NamedProcessor × GlobalState) :=
  match env.newTxAggregator (txAggregatorConfigOf args) with
  | Except.error e => Except.error (Err.wrap ("error creating " ++ txProcessorName) e)
  | Except.ok agg =>
    match registryNewFunc (st.aggregationRegistry.remove "txmetrics") "txmetrics"
        agg.collectMonitoring with
    | Except.error e => Except.error e
    | Except.ok aggReg =>
      let st1 := { st with aggregationRegistry := aggReg }
      match env.newSpanAggregator (spanAggregatorConfigOf args) with
      | Except.error e =>
          Except.error (Err.wrap ("error creating " ++ spanProcessorName) e)
      | Except.ok spanAggregator =>
        if args.config.sampling.tail.enabled then
          match newTailSamplingProcessor env st1 args with
          | Except.error e =>
              Except.error (Err.wrap ("error creating " ++ tailProcessorName) e)
          | Except.ok (sampler, st2) =>
            match registryNewFunc (st2.samplingRegistry.remove "tail") "tail"
                sampler.collectMonitoring with
            | Except.error e => Except.error e
            | Except.ok samReg =>
              Except.ok
                ([{ name := txProcessorName, processor := agg },
                  { name := spanProcessorName, processor := spanAggregator },
                  { name := tailProcessorName, processor := sampler }],
                 { st2 with samplingRegistry := samReg })
        else
          Except.ok
            ([{ name := txProcessorName, processor := agg },
              { name := spanProcessorName, processor := spanAggregator }], st1)

/-- Modelled from the spec: `modelprocessor.Chained` (not under src/) forwards
the batch through each processor in order, each seeing the batch produced by
the processors before it, stopping at the first error. -/
def chainedProcessBatch : List BatchProc → Batch → Except Err Batch
  | [], b => Except.ok b
  | p :: ps, b =>
    match p b with
    | Except.error e => Except.error e
    | Except.ok b2 => chainedProcessBatch ps b2

/-- `wrapServer` (main.go lines 223-241): builds the processors, prepends them
to the original downstream batch processor in a chain, and replaces
`args.BatchProcessor`. The wrapped run-server closure is determined by the
returned processor list and is modelled by the lifecycle trace semantics. -/
def wrapServer (env : Env) (st : GlobalState) (args : ServerParams) :
    Except Err (ServerParams × List NamedProcessor × GlobalState) :=
  match newProcessors env st args with
  | Except.error e => Except.error e
  | Except.ok (processors, st1) =>
    let processorChain :=
      processors.map (fun p => p.processor.processBatch) ++ [args.batchProcessor]
    Except.ok ({ args with batchProcessor := chainedProcessBatch processorChain },
               processors, st1)

/-- The context passed to each processor `Stop` by the stop goroutine of
`runServerWithProcessors` (main.go lines 203-214): `context.Background()` (no
deadline), wrapped by `context.WithTimeout(_, ShutdownTimeout)` exactly when
`ShutdownTimeout > 0`. Rendered as the optional deadline (duration from the
moment `Stop` is called). -/
def stopContextOf (shutdownTimeout : Int) : Option Int :=
  if 0 < shutdownTimeout then some shutdownTimeout else none

/-- Observable events of one completed execution of `runServerWithProcessors`
(main.go lines 186-221) with `n` processors: each processor's `Run` return,
`Stop` invocation and `Stop` return, the return of `runServer`, and the
deferred `close(serverStopped)`. -/
inductive REvent (n : Nat) where
  | runEnd : Fin n → REvent n
  | stopCall : Fin n → REvent n
  | stopEnd : Fin n → REvent n
  | serverEnd : REvent n
  | serverStoppedClosed : REvent n
deriving DecidableEq

/-- All events of a completed execution. -/
def allREvents (n : Nat) : List (REvent n) :=
  ((List.finRange n).map REvent.runEnd) ++
  ((List.finRange n).map REvent.stopCall) ++
  ((List.finRange n).map REvent.stopEnd) ++
  [REvent.serverEnd, REvent.serverStoppedClosed]

/-- A completed execution trace: a linear order on the events, each occurring
exactly once. -/
def completeTrace {n : Nat} (tr : List (REvent n)) : Prop :=
  tr.Nodup ∧ ∀ e ∈ allREvents n, e ∈ tr

instance {n : Nat} (tr : List (REvent n)) : Decidable (completeTrace tr) :=
  inferInstanceAs (Decidable (tr.Nodup ∧ ∀ e ∈ allREvents n, e ∈ tr))

/-- Position of an event in a trace. -/
def epos {n : Nat} (tr : List (REvent n)) (e : REvent n) : Nat := tr.indexOf e

/-- The orderings forced by the code of `runServerWithProcessors`:
`close(serverStopped)` is deferred until `runServer` returns (lines 216-219);
each stop goroutine blocks on `<-serverStopped` before calling `Stop` (lines
203-213); `Stop` returns after it is called. Nothing else is ordered: the
`Run` returns and the `Stop` calls of distinct processors are concurrent. -/
def validOrder {n : Nat} (tr : List (REvent n)) : Prop :=
  epos tr REvent.serverEnd < epos tr REvent.serverStoppedClosed ∧
  ∀ i : Fin n,
    epos tr REvent.serverStoppedClosed < epos tr (REvent.stopCall i) ∧
    epos tr (REvent.stopCall i) < epos tr (REvent.stopEnd i)

instance {n : Nat} (tr : List (REvent n)) : Decidable (validOrder tr) :=
  inferInstanceAs (Decidable (_ ∧ ∀ _i : Fin n, _ ∧ _))

/-- The error results of the goroutines spawned by `runServerWithProcessors`:
each processor's `Run` and `Stop` result, and the `runServer` result. -/
structure RunnerSpec (n : Nat) where
  runErr : Fin n → Option Err
  stopErr : Fin n → Option Err
  serverErr : Option Err

/-- The error (if any) returned by the goroutine completing at an event. -/
def eventErr {n : Nat} (R : RunnerSpec n) : REvent n → Option Err
  | REvent.runEnd i => R.runErr i
  | REvent.stopEnd i => R.stopErr i
  | REvent.serverEnd => R.serverErr
  | _ => none

/-- errgroup semantics: `g.Wait()` returns the error of the first goroutine
(in completion order) that returned a non-nil error, or nil. -/
def waitResult {n : Nat} (R : RunnerSpec n) : List (REvent n) → Option Err
  | [] => none
  | e :: tr =>
    match eventErr R e with
    | some err => some err
    | none => waitResult R tr

/-- errgroup semantics: the shared context produced by `errgroup.WithContext`
(handed to `runServer`) is cancelled once some goroutine returns a non-nil
error. -/
def groupCtxCancelled {n : Nat} (R : RunnerSpec n) (tr : List (REvent n)) : Prop :=
  ∃ e ∈ tr, eventErr R e ≠ none

instance {n : Nat} (R : RunnerSpec n) (tr : List (REvent n)) :
    Decidable (groupCtxCancelled R tr) :=
  inferInstanceAs (Decidable (∃ e ∈ tr, eventErr R e ≠ none))

/-- The global state after the txmetrics registration of `newProcessors`. -/
def stAfterTx (st : GlobalState) (agg : Processor) : GlobalState :=
  { st with aggregationRegistry :=
      ⟨("txmetrics", agg.collectMonitoring) ::
        (st.aggregationRegistry.remove "txmetrics").entries⟩ }

/-- The global state after the tail registration of `newProcessors`. -/
def stAfterTail (st : GlobalState) (sampler : Processor) : GlobalState :=
  { st with samplingRegistry :=
      ⟨("tail", sampler.collectMonitoring) ::
        (st.samplingRegistry.remove "tail").entries⟩ }

lemma filter_ne_any_eq_false (l : List (String × Nat)) (name : String) :
    (l.filter (fun e => e.1 != name)).any (fun e => e.1 == name) = false := by
  induction l with
  | nil => rfl
  | cons a t ih =>
    by_cases h : a.1 = name
    · simp [List.filter_cons, h, ih]
    · simp [List.filter_cons, h, ih]

lemma registryNewFunc_remove (r : Registry) (name : String) (f : Nat) :
    registryNewFunc (r.remove name) name f =
      Except.ok ⟨(name, f) :: (r.remove name).entries⟩ := by
  simp [registryNewFunc, Registry.remove, filter_ne_any_eq_false]

lemma getBadgerDB_some (env : Env) (st : GlobalState) (dir : String)
    (db : BadgerDB) (h : st.badgerDB = some db) :
    getBadgerDB env st dir = Except.ok (db, st) := by
  simp [getBadgerDB, h]

lemma getBadgerDB_ok_state (env : Env) (st st' : GlobalState) (dir : String)
    (db : BadgerDB) (h : getBadgerDB env st dir = Except.ok (db, st')) :
    st'.badgerDB = some db := by
  unfold getBadgerDB at h
  cases hdb : st.badgerDB with
  | some db0 =>
    rw [hdb] at h
    cases h
    exact hdb
  | none =>
    rw [hdb] at h
    cases hob : env.openBadger dir (-1) with
    | error e => rw [hob] at h; cases h
    | ok db0 => rw [hob] at h; cases h; rfl

lemma getStorage_some (st : GlobalState) (db : BadgerDB) (s : ShardedReadWriter)
    (h : st.storage = some s) : getStorage st db = (s, st) := by
  simp [getStorage, h]

lemma getStorage_state (st : GlobalState) (db : BadgerDB) :
    (getStorage st db).2.storage = some (getStorage st db).1 := by
  cases h : st.storage <;> simp [getStorage, h]

lemma chainedProcessBatch_cons (p : BatchProc) (ps : List BatchProc) (b : Batch) :
    chainedProcessBatch (p :: ps) b = (p b).bind (chainedProcessBatch ps) := by
  cases h : p b <;> simp [chainedProcessBatch, h, Except.bind]

lemma chainedProcessBatch_nil (b : Batch) : chainedProcessBatch [] b = Except.ok b :=
  rfl

/-- Run equation for `newProcessors` when tail sampling is enabled and every
construction succeeds. -/
lemma newProcessors_enabled_eq (env : Env) (st : GlobalState) (args : ServerParams)
    (agg spanAgg sampler : Processor) (st2 : GlobalState)
    (hEn : args.config.sampling.tail.enabled = true)
    (h1 : env.newTxAggregator (txAggregatorConfigOf args) = Except.ok agg)
    (h2 : env.newSpanAggregator (spanAggregatorConfigOf args) = Except.ok spanAgg)
    (h3 : newTailSamplingProcessor env (stAfterTx st agg) args =
            Except.ok (sampler, st2)) :
    newProcessors env st args =
      Except.ok
        ([{ name := txProcessorName, processor := agg },
          { name := spanProcessorName, processor := spanAgg },
          { name := tailProcessorName, processor := sampler }],
         stAfterTail st2 sampler) := by
  have h3' : newTailSamplingProcessor env
      { st with aggregationRegistry :=
          ⟨("txmetrics", agg.collectMonitoring) ::
            (st.aggregationRegistry.remove "txmetrics").entries⟩ } args =
      Except.ok (sampler, st2) := h3
  unfold newProcessors
  simp only [h1, registryNewFunc_remove, h2, hEn, if_true, h3']
  rfl

/-- Run equation for `newProcessors` when tail sampling is disabled and the two
aggregator constructions succeed. -/
lemma newProcessors_disabled_eq (env : Env) (st : GlobalState) (args : ServerParams)
    (agg spanAgg : Processor)
    (hEn : args.config.sampling.tail.enabled = false)
    (h1 : env.newTxAggregator (txAggregatorConfigOf args) = Except.ok agg)
    (h2 : env.newSpanAggregator (spanAggregatorConfigOf args) = Except.ok spanAgg) :
    newProcessors env st args =
      Except.ok
        ([{ name := txProcessorName, processor := agg },
          { name := spanProcessorName, processor := spanAgg }],
         stAfterTx st agg) := by
  unfold newProcessors
  simp only [h1, registryNewFunc_remove, h2, hEn, Bool.false_eq_true, if_false]
  rfl

/-- Run equation for `newTailSamplingProcessor` when the Elasticsearch client
and the badger database are obtained successfully. -/
lemma newTailSamplingProcessor_eq (env : Env) (st st1 : GlobalState)
    (args : ServerParams) (es : ESClient) (db : BadgerDB)
    (h1 : args.newElasticsearchClient args.config.sampling.tail.esConfig =
            Except.ok es)
    (h2 : getBadgerDB env st (pathsResolve env.dataDir tailSamplingStorageDir) =
            Except.ok (db, st1)) :
    newTailSamplingProcessor env st args =
      Except.map
        (fun p => (p, (getStorage { st1 with badgerDB := some db } db).2))
        (env.newSamplingProcessor
          (tailSamplingConfigBuilt args es db
            (getStorage { st1 with badgerDB := some db } db).1
            (pathsResolve env.dataDir tailSamplingStorageDir))) := by
  unfold newTailSamplingProcessor
  simp only [h1, h2]

lemma bind_chained_nil (x : Except Err Batch) :
    x.bind (chainedProcessBatch []) = x := by
  cases x <;> rfl

lemma chainedProcessBatch_cons_fun (p : BatchProc) (ps : List BatchProc) :
    chainedProcessBatch (p :: ps) =
      fun b => (p b).bind (chainedProcessBatch ps) :=
  funext (chainedProcessBatch_cons p ps)

/-- Packaged run equation for `wrapServer` when tail sampling is enabled and
every step succeeds. -/
lemma wrapServer_enabled_run (env : Env) (st stB : GlobalState) (args : ServerParams)
    (agg spanAgg sampler : Processor) (es : ESClient) (db : BadgerDB)
    (rw : ShardedReadWriter)
    (hEn : args.config.sampling.tail.enabled = true)
    (h1 : env.newTxAggregator (txAggregatorConfigOf args) = Except.ok agg)
    (h2 : env.newSpanAggregator (spanAggregatorConfigOf args) = Except.ok spanAgg)
    (h3 : args.newElasticsearchClient args.config.sampling.tail.esConfig =
            Except.ok es)
    (hb : getBadgerDB env (stAfterTx st agg)
            (pathsResolve env.dataDir tailSamplingStorageDir) = Except.ok (db, stB))
    (hrw : (getStorage { stB with badgerDB := some db } db).1 = rw)
    (h7 : env.newSamplingProcessor
            (tailSamplingConfigBuilt args es db rw
              (pathsResolve env.dataDir tailSamplingStorageDir)) = Except.ok sampler) :
    wrapServer env st args =
      Except.ok
        ({ args with batchProcessor := (chainedProcessBatch
            [agg.processBatch, spanAgg.processBatch, sampler.processBatch,
             args.batchProcessor]) },
         [{ name := txProcessorName, processor := agg },
          { name := spanProcessorName, processor := spanAgg },
          { name := tailProcessorName, processor := sampler }],
         stAfterTail (getStorage { stB with badgerDB := some db } db).2 sampler) := by
  have hts : newTailSamplingProcessor env (stAfterTx st agg) args =
      Except.ok (sampler, (getStorage { stB with badgerDB := some db } db).2) := by
    rw [newTailSamplingProcessor_eq env (stAfterTx st agg) stB args es db h3 hb,
        hrw, h7]
    rfl
  have hnp := newProcessors_enabled_eq env st args agg spanAgg sampler
    (getStorage { stB with badgerDB := some db } db).2 hEn h1 h2 hts
  unfold wrapServer
  rw [hnp]
  rfl

/-- Concrete fixtures used by the evaluation witnesses. -/
def sampleESConfig : ESOutputConfig := { compressionLevel := 5, rest := 0 }

def sampleDB : BadgerDB := { id := 42 }

def sampleRW : ShardedReadWriter := { db := sampleDB, codec := Codec.json }

def samplePolicy : TailSamplingPolicy :=
  { service := { name := "svc", environment := "prod" }
    trace := { name := "tr", outcome := "success" }
    sampleRate := (1 : Rat) / 2 }

def sampleTailConfig : TailSamplingConfig :=
  { enabled := true
    policies := [samplePolicy]
    esConfig := sampleESConfig
    interval := 60
    ingestRateDecayFactor := (1 : Rat) / 4
    storageGCInterval := 300
    storageLimitParsed := 4096
    ttl := 1800 }

def sampleConfig : Config :=
  { aggregation :=
      { transactions :=
          { maxTransactionGroups := 10000, interval := 60,
            hdrHistogramSignificantFigures := 2 }
        serviceDestinations := { interval := 60, maxGroups := 10000 } }
    sampling := { tail := sampleTailConfig }
    shutdownTimeout := 30 }

def sampleBatchProc : BatchProc := fun b => Except.ok b

def sampleArgs : ServerParams :=
  { config := sampleConfig
    batchProcessor := sampleBatchProc
    nameSpace := "default"
    uuid := "uuid-1234"
    newElasticsearchClient := fun _ => Except.ok 7 }

def sampleProcessor (k : Nat) : Processor :=
  { processBatch := sampleBatchProc, collectMonitoring := k }

def sampleEnv : Env :=
  { newTxAggregator := fun _ => Except.ok (sampleProcessor 1)
    newSpanAggregator := fun _ => Except.ok (sampleProcessor 2)
    newSamplingProcessor := fun _ => Except.ok (sampleProcessor 3)
    openBadger := fun _ _ => Except.ok sampleDB
    dataDir := "data" }

def sampleState : GlobalState :=
  { badgerDB := none, storage := none,
    aggregationRegistry := ⟨[]⟩, samplingRegistry := ⟨[]⟩ }

def sampleErr : Err := Err.base "boom"

def sampleStMid : GlobalState := stAfterTx sampleState (sampleProcessor 1)

def sampleSt2 : GlobalState :=
  { sampleStMid with badgerDB := some sampleDB, storage := some sampleRW }

/-- C10: the tail-sampling processor's `MaxDynamicServices` bound is the
constant 1000 in the sampling.Config built by `newTailSamplingProcessor`, for
every configuration. -/
theorem c10_max_dynamic_services_constant (args : ServerParams) (es : ESClient)
    (db : BadgerDB) (rw : ShardedReadWriter) (dir : String) :
    (tailSamplingConfigBuilt args es db rw
        dir).localSamplingConfig.maxDynamicServices = 1000 :=
  rfl

/-- C7: the policy list handed to the sampling processor has the same length
and order as the configured policies, and each policy's criteria and sample
rate equal the corresponding configured fields. -/
theorem c7_policy_order_preserved (args : ServerParams) (es : ESClient)
    (db : BadgerDB) (rw : ShardedReadWriter) (dir : String) :
    ((tailSamplingConfigBuilt args es db rw dir).localSamplingConfig.policies.length
       = args.config.sampling.tail.policies.length) ∧
    ∀ i : Nat, i < args.config.sampling.tail.policies.length →
      ∃ p q, args.config.sampling.tail.policies[i]? = some p ∧
        (tailSamplingConfigBuilt args es db rw
            dir).localSamplingConfig.policies[i]? = some q ∧
        q.policyCriteria.serviceName = p.service.name ∧
        q.policyCriteria.serviceEnvironment = p.service.environment ∧
        q.policyCriteria.traceName = p.trace.name ∧
        q.policyCriteria.traceOutcome = p.trace.outcome ∧
        q.sampleRate = p.sampleRate := by
  constructor
  · simp [tailSamplingConfigBuilt, tailSamplingPolicies]
  · intro i hi
    have hmap : (tailSamplingConfigBuilt args es db rw
        dir).localSamplingConfig.policies[i]? =
        some { policyCriteria :=
                 { serviceName := args.config.sampling.tail.policies[i].service.name
                   serviceEnvironment :=
                     args.config.sampling.tail.policies[i].service.environment
                   traceName := args.config.sampling.tail.policies[i].trace.name
                   traceOutcome := args.config.sampling.tail.policies[i].trace.outcome }
               sampleRate := args.config.sampling.tail.policies[i].sampleRate } := by
      simp [tailSamplingConfigBuilt, tailSamplingPolicies, List.getElem?_map,
        List.getElem?_eq_getElem hi]
    exact ⟨args.config.sampling.tail.policies[i], _,
      List.getElem?_eq_getElem hi, hmap, rfl, rfl, rfl, rfl, rfl⟩

/-- Evaluation witness for C7 at a one-policy configuration. -/
theorem c7_policy_order_preserved_witness :
    0 < sampleArgs.config.sampling.tail.policies.length ∧
    ∃ p q, sampleArgs.config.sampling.tail.policies[0]? = some p ∧
      (tailSamplingConfigBuilt sampleArgs 7 sampleDB sampleRW
          "data/tail_sampling").localSamplingConfig.policies[0]? = some q ∧
      q.policyCriteria.serviceName = p.service.name ∧
      q.policyCriteria.serviceEnvironment = p.service.environment ∧
      q.policyCriteria.traceName = p.trace.name ∧
      q.policyCriteria.traceOutcome = p.trace.outcome ∧
      q.sampleRate = p.sampleRate :=
  ⟨by decide,
   (c7_policy_order_preserved sampleArgs 7 sampleDB sampleRW
      "data/tail_sampling").2 0 (by decide)⟩

/-- C5: when the Elasticsearch client and the badger database are obtained,
`newTailSamplingProcessor` constructs the sampling processor with the
sampled-traces data stream `traces-apm.sampled-<namespace>`, BeatID equal to
the server UUID string, and the compression level of the Elasticsearch output
configuration. -/
theorem c5_sampled_traces_datastream (env : Env) (st st1 : GlobalState)
    (args : ServerParams) (es : ESClient) (db : BadgerDB)
    (h1 : args.newElasticsearchClient args.config.sampling.tail.esConfig =
            Except.ok es)
    (h2 : getBadgerDB env st (pathsResolve env.dataDir tailSamplingStorageDir) =
            Except.ok (db, st1)) :
    (newTailSamplingProcessor env st args =
      Except.map
        (fun p => (p, (getStorage { st1 with badgerDB := some db } db).2))
        (env.newSamplingProcessor
          (tailSamplingConfigBuilt args es db
            (getStorage { st1 with badgerDB := some db } db).1
            (pathsResolve env.dataDir tailSamplingStorageDir)))) ∧
    ∀ (rw : ShardedReadWriter) (dir : String),
      (tailSamplingConfigBuilt args es db rw
          dir).remoteSamplingConfig.sampledTracesDataStream =
        { type := "traces", dataset := "apm.sampled", nameSpace := args.nameSpace } ∧
      (tailSamplingConfigBuilt args es db rw dir).beatID = args.uuid ∧
      (tailSamplingConfigBuilt args es db rw dir).remoteSamplingConfig.compressionLevel =
        args.config.sampling.tail.esConfig.compressionLevel :=
  ⟨newTailSamplingProcessor_eq env st st1 args es db h1 h2,
   fun _ _ => ⟨rfl, rfl, rfl⟩⟩

/-- Evaluation witness for C5 at the concrete fixtures. -/
theorem c5_sampled_traces_datastream_witness :
    (tailSamplingConfigBuilt sampleArgs 7 sampleDB sampleRW
        "data/tail_sampling").remoteSamplingConfig.sampledTracesDataStream =
      { type := "traces", dataset := "apm.sampled", nameSpace := "default" } ∧
    (tailSamplingConfigBuilt sampleArgs 7 sampleDB sampleRW
        "data/tail_sampling").beatID = "uuid-1234" ∧
    (tailSamplingConfigBuilt sampleArgs 7 sampleDB sampleRW
        "data/tail_sampling").remoteSamplingConfig.compressionLevel = 5 :=
  (c5_sampled_traces_datastream sampleEnv sampleState
      { sampleState with badgerDB := some sampleDB } sampleArgs 7 sampleDB rfl rfl).2
    sampleRW "data/tail_sampling"

/-- C1: with tail sampling enabled, `wrapServer` builds the batch-processor
chain in exactly the order transaction-metrics aggregator, span-metrics
aggregator, tail sampler, original downstream processor, and the chain passes
each processor the batch produced by the processors before it. -/
theorem c1_chain_order (env : Env) (st : GlobalState) (args : ServerParams)
    (agg spanAgg sampler : Processor) (st2 : GlobalState)
    (hEn : args.config.sampling.tail.enabled = true)
    (h1 : env.newTxAggregator (txAggregatorConfigOf args) = Except.ok agg)
    (h2 : env.newSpanAggregator (spanAggregatorConfigOf args) = Except.ok spanAgg)
    (h3 : newTailSamplingProcessor env (stAfterTx st agg) args =
            Except.ok (sampler, st2)) :
    wrapServer env st args =
      Except.ok
        ({ args with batchProcessor := (chainedProcessBatch
            [agg.processBatch, spanAgg.processBatch, sampler.processBatch,
             args.batchProcessor]) },
         [{ name := txProcessorName, processor := agg },
          { name := spanProcessorName, processor := spanAgg },
          { name := tailProcessorName, processor := sampler }],
         stAfterTail st2 sampler) ∧
    ∀ b : Batch,
      chainedProcessBatch
        [agg.processBatch, spanAgg.processBatch, sampler.processBatch,
         args.batchProcessor] b =
      (agg.processBatch b).bind (fun b1 =>
        (spanAgg.processBatch b1).bind (fun b2 =>
          (sampler.processBatch b2).bind (fun b3 => args.batchProcessor b3))) := by
  constructor
  · unfold wrapServer
    rw [newProcessors_enabled_eq env st args agg spanAgg sampler st2 hEn h1 h2 h3]
    rfl
  · intro b
    simp only [chainedProcessBatch_cons_fun, bind_chained_nil]

/-- Evaluation witness for C1 at the concrete fixtures. -/
theorem c1_chain_order_witness :
    wrapServer sampleEnv sampleState sampleArgs =
      Except.ok
        ({ sampleArgs with batchProcessor := (chainedProcessBatch
            [(sampleProcessor 1).processBatch, (sampleProcessor 2).processBatch,
             (sampleProcessor 3).processBatch, sampleArgs.batchProcessor]) },
         [{ name := txProcessorName, processor := sampleProcessor 1 },
          { name := spanProcessorName, processor := sampleProcessor 2 },
          { name := tailProcessorName, processor := sampleProcessor 3 }],
         stAfterTail sampleSt2 (sampleProcessor 3)) :=
  (c1_chain_order sampleEnv sampleState sampleArgs (sampleProcessor 1)
    (sampleProcessor 2) (sampleProcessor 3) sampleSt2 rfl rfl rfl (by rfl)).1

/-- C4: when any processor constructor fails — the transaction-metrics
aggregator, the span-metrics aggregator, the tail sampler generally, or
specifically the badger KV storage open — `newProcessors` and `wrapServer`
return the failure (wrapped with its construction context by `errors.Wrapf`,
cause preserved) and no wrapped server is produced. -/
theorem c4_construction_failure_propagates (env : Env) (st : GlobalState)
    (args : ServerParams) (e : Err) :
    (env.newTxAggregator (txAggregatorConfigOf args) = Except.error e →
      newProcessors env st args =
        Except.error (Err.wrap "error creating transaction metrics aggregation" e) ∧
      wrapServer env st args =
        Except.error (Err.wrap "error creating transaction metrics aggregation" e)) ∧
    (∀ agg, env.newTxAggregator (txAggregatorConfigOf args) = Except.ok agg →
      env.newSpanAggregator (spanAggregatorConfigOf args) = Except.error e →
      newProcessors env st args =
        Except.error (Err.wrap "error creating service destinations aggregation" e) ∧
      wrapServer env st args =
        Except.error (Err.wrap "error creating service destinations aggregation" e)) ∧
    (∀ agg spanAgg, args.config.sampling.tail.enabled = true →
      env.newTxAggregator (txAggregatorConfigOf args) = Except.ok agg →
      env.newSpanAggregator (spanAggregatorConfigOf args) = Except.ok spanAgg →
      newTailSamplingProcessor env (stAfterTx st agg) args = Except.error e →
      newProcessors env st args =
        Except.error (Err.wrap "error creating tail sampler" e) ∧
      wrapServer env st args =
        Except.error (Err.wrap "error creating tail sampler" e)) ∧
    (st.badgerDB = none →
      env.openBadger (pathsResolve env.dataDir tailSamplingStorageDir) (-1) =
        Except.error e →
      ∀ es, args.newElasticsearchClient args.config.sampling.tail.esConfig =
        Except.ok es →
      newTailSamplingProcessor env st args =
        Except.error (Err.wrap "failed to get Badger database" e)) := by
  refine ⟨?_, ?_, ?_, ?_⟩
  · intro h
    have hn : newProcessors env st args =
        Except.error (Err.wrap "error creating transaction metrics aggregation" e) := by
      unfold newProcessors
      simp only [h]
      rfl
    exact ⟨hn, by unfold wrapServer; rw [hn]⟩
  · intro agg h1 h2
    have hn : newProcessors env st args =
        Except.error (Err.wrap "error creating service destinations aggregation" e) := by
      unfold newProcessors
      simp only [h1, registryNewFunc_remove, h2]
      rfl
    exact ⟨hn, by unfold wrapServer; rw [hn]⟩
  · intro agg spanAgg hEn h1 h2 h3
    have h3' : newTailSamplingProcessor env
        { st with aggregationRegistry :=
            ⟨("txmetrics", agg.collectMonitoring) ::
              (st.aggregationRegistry.remove "txmetrics").entries⟩ } args =
        Except.error e := h3
    have hn : newProcessors env st args =
        Except.error (Err.wrap "error creating tail sampler" e) := by
      unfold newProcessors
      simp only [h1, registryNewFunc_remove, h2, hEn, if_true, h3']
      rfl
    exact ⟨hn, by unfold wrapServer; rw [hn]⟩
  · intro hnil hob es hes
    unfold newTailSamplingProcessor
    simp only [hes, getBadgerDB, hnil, hob]

/-- Evaluation witness for C4: a failing transaction-metrics constructor and a
failing badger open, at the concrete fixtures. -/
theorem c4_construction_failure_propagates_witness :
    wrapServer { sampleEnv with newTxAggregator := fun _ => Except.error sampleErr }
        sampleState sampleArgs =
      Except.error
        (Err.wrap "error creating transaction metrics aggregation" sampleErr) ∧
    newTailSamplingProcessor
        { sampleEnv with openBadger := fun _ _ => Except.error sampleErr }
        sampleState sampleArgs =
      Except.error (Err.wrap "failed to get Badger database" sampleErr) :=
  ⟨((c4_construction_failure_propagates
      { sampleEnv with newTxAggregator := fun _ => Except.error sampleErr }
      sampleState sampleArgs sampleErr).1 rfl).2,
   (c4_construction_failure_propagates
      { sampleEnv with openBadger := fun _ _ => Except.error sampleErr }
      sampleState sampleArgs sampleErr).2.2.2 rfl rfl 7 rfl⟩

/-- C9: when tail sampling is disabled, `newProcessors` returns exactly the
two aggregator processors; the badger database, the event storage and the
sampling registry are untouched, and the result does not depend on the badger
opener, the sampling-processor constructor, or the Elasticsearch client
factory. -/
theorem c9_tail_disabled_two_processors (env : Env) (st : GlobalState)
    (args : ServerParams) (agg spanAgg : Processor)
    (hEn : args.config.sampling.tail.enabled = false)
    (h1 : env.newTxAggregator (txAggregatorConfigOf args) = Except.ok agg)
    (h2 : env.newSpanAggregator (spanAggregatorConfigOf args) = Except.ok spanAgg) :
    newProcessors env st args =
      Except.ok
        ([{ name := txProcessorName, processor := agg },
          { name := spanProcessorName, processor := spanAgg }],
         stAfterTx st agg) ∧
    (stAfterTx st agg).badgerDB = st.badgerDB ∧
    (stAfterTx st agg).storage = st.storage ∧
    (stAfterTx st agg).samplingRegistry = st.samplingRegistry ∧
    ∀ (oB : String → Int → Except Err BadgerDB)
      (nSP : SamplingConfig → Except Err Processor)
      (nEC : ESOutputConfig → Except Err ESClient),
      newProcessors { env with openBadger := oB, newSamplingProcessor := nSP } st
          { args with newElasticsearchClient := nEC } =
        newProcessors env st args := by
  refine ⟨newProcessors_disabled_eq env st args agg spanAgg hEn h1 h2,
    rfl, rfl, rfl, ?_⟩
  intro oB nSP nEC
  rw [newProcessors_disabled_eq env st args agg spanAgg hEn h1 h2,
      newProcessors_disabled_eq { env with openBadger := oB, newSamplingProcessor := nSP }
        st { args with newElasticsearchClient := nEC } agg spanAgg hEn h1 h2]

/-- Evaluation witness for C9 at a concrete disabled configuration. -/
theorem c9_tail_disabled_two_processors_witness :
    newProcessors sampleEnv sampleState
        { sampleArgs with config :=
            { sampleConfig with sampling :=
                { tail := { sampleTailConfig with enabled := false } } } } =
      Except.ok
        ([{ name := txProcessorName, processor := sampleProcessor 1 },
          { name := spanProcessorName, processor := sampleProcessor 2 }],
         stAfterTx sampleState (sampleProcessor 1)) :=
  (c9_tail_disabled_two_processors sampleEnv sampleState
    { sampleArgs with config :=
        { sampleConfig with sampling :=
            { tail := { sampleTailConfig with enabled := false } } } }
    (sampleProcessor 1) (sampleProcessor 2) rfl rfl rfl).1

/-- C8: `getBadgerDB` opens the database only when the global handle is nil
and every later call returns the same handle; `getStorage` constructs the
sharded read-writer (with the JSON codec) at most once and always returns the
same instance. -/
theorem c8_badger_storage_singletons (env : Env) (st : GlobalState) (dir : String)
    (db : BadgerDB) (s : ShardedReadWriter) :
    (st.badgerDB = some db → getBadgerDB env st dir = Except.ok (db, st)) ∧
    (∀ st', getBadgerDB env st dir = Except.ok (db, st') →
      st'.badgerDB = some db ∧
      ∀ (env2 : Env) (dir2 : String),
        getBadgerDB env2 st' dir2 = Except.ok (db, st')) ∧
    (st.badgerDB = none →
      getBadgerDB env st dir =
        Except.map (fun d => (d, { st with badgerDB := some d }))
          (env.openBadger dir (-1))) ∧
    (st.storage = some s → ∀ db2, getStorage st db2 = (s, st)) ∧
    (st.storage = none →
      getStorage st db =
        ({ db := db, codec := Codec.json },
         { st with storage := some { db := db, codec := Codec.json } })) ∧
    (∀ s' st', getStorage st db = (s', st') →
      st'.storage = some s' ∧ ∀ db2, getStorage st' db2 = (s', st')) := by
  refine ⟨fun h => getBadgerDB_some env st dir db h, ?_, ?_, ?_, ?_, ?_⟩
  · intro st' h
    have hb := getBadgerDB_ok_state env st st' dir db h
    exact ⟨hb, fun env2 dir2 => getBadgerDB_some env2 st' dir2 db hb⟩
  · intro h
    unfold getBadgerDB
    rw [h]
    cases env.openBadger dir (-1) <;> rfl
  · intro h db2
    exact getStorage_some st db2 s h
  · intro h
    simp [getStorage, h]
  · intro s' st' h
    have h1 : (getStorage st db).2.storage = some (getStorage st db).1 :=
      getStorage_state st db
    rw [h] at h1
    refine ⟨h1, fun db2 => ?_⟩
    have h2 := getStorage_some st' db2 s' h1
    rw [h2]

/-- Evaluation witness for C8: once both globals are set, further calls return
the existing instances unchanged. -/
theorem c8_badger_storage_singletons_witness :
    getBadgerDB sampleEnv sampleSt2 "elsewhere" = Except.ok (sampleDB, sampleSt2) ∧
    getStorage sampleSt2 { id := 99 } = (sampleRW, sampleSt2) :=
  ⟨(c8_badger_storage_singletons sampleEnv sampleSt2 "elsewhere" sampleDB
      sampleRW).1 rfl,
   (c8_badger_storage_singletons sampleEnv sampleSt2 "elsewhere" sampleDB
      sampleRW).2.2.2.1 rfl { id := 99 }⟩

lemma mem_allREvents {n : Nat} (e : REvent n) : e ∈ allREvents n := by
  cases e <;> simp [allREvents]

lemma waitResult_ne_none {n : Nat} (R : RunnerSpec n) (tr : List (REvent n))
    (e : REvent n) (he : e ∈ tr) (hne : eventErr R e ≠ none) :
    waitResult R tr ≠ none := by
  induction tr with
  | nil => cases he
  | cons a t ih =>
    cases he' : eventErr R a with
    | some err => simp [waitResult, he']
    | none =>
      simp only [waitResult, he']
      rcases List.mem_cons.mp he with h | h
      · subst h
        exact absurd he' hne
      · exact ih h

lemma waitResult_only {n : Nat} (R : RunnerSpec n) (e : Err)
    (hall : ∀ x : REvent n, eventErr R x = none ∨ eventErr R x = some e)
    (tr : List (REvent n)) :
    waitResult R tr = none ∨ waitResult R tr = some e := by
  induction tr with
  | nil => exact Or.inl rfl
  | cons a t ih =>
    rcases hall a with h | h
    · simpa [waitResult, h] using ih
    · simp [waitResult, h]

/-- C3 (confirmed): in every completed execution of `runServerWithProcessors`
in which some processor's `Run` returned a non-nil error, the errgroup's
shared context — the one handed to `runServer` — is cancelled, and
`g.Wait()` (the value `runServerWithProcessors` returns) is a non-nil error;
when that `Run` error is the only failure, it is exactly the returned error. -/
theorem c3_run_error_aborts_group (n : Nat) (R : RunnerSpec n)
    (tr : List (REvent n)) (i : Fin n) (e : Err)
    (hc : completeTrace tr) (hi : R.runErr i = some e) :
    groupCtxCancelled R tr ∧
    waitResult R tr ≠ none ∧
    ((∀ j : Fin n, R.runErr j ≠ none → j = i) →
     (∀ j : Fin n, R.stopErr j = none) → R.serverErr = none →
     waitResult R tr = some e) := by
  have hmem : REvent.runEnd i ∈ tr := hc.2 _ (mem_allREvents _)
  have hne : eventErr R (REvent.runEnd i) ≠ none := by
    simp [eventErr, hi]
  refine ⟨⟨_, hmem, hne⟩, waitResult_ne_none R tr _ hmem hne, ?_⟩
  intro honly hstop hserver
  have hall : ∀ x : REvent n, eventErr R x = none ∨ eventErr R x = some e := by
    intro x
    cases x with
    | runEnd j =>
      by_cases hj : R.runErr j = none
      · exact Or.inl hj
      · have := honly j hj
        subst this
        exact Or.inr (by simpa [eventErr] using hi)
    | stopCall j => exact Or.inl rfl
    | stopEnd j => exact Or.inl (hstop j)
    | serverEnd => exact Or.inl hserver
    | serverStoppedClosed => exact Or.inl rfl
  rcases waitResult_only R e hall tr with h | h
  · exact absurd h (waitResult_ne_none R tr _ hmem hne)
  · exact h

/-- A one-processor runner whose `Run` fails. -/
def sampleRunner1 : RunnerSpec 1 :=
  { runErr := fun _ => some sampleErr
    stopErr := fun _ => none
    serverErr := none }

/-- A completed valid execution trace with one processor. -/
def sampleTrace1 : List (REvent 1) :=
  [REvent.runEnd 0, REvent.serverEnd, REvent.serverStoppedClosed,
   REvent.stopCall 0, REvent.stopEnd 0]

/-- Evaluation witness for C3 at a one-processor execution. -/
theorem c3_run_error_aborts_group_witness :
    groupCtxCancelled sampleRunner1 sampleTrace1 ∧
    waitResult sampleRunner1 sampleTrace1 = some sampleErr :=
  have h := c3_run_error_aborts_group 1 sampleRunner1 sampleTrace1 0 sampleErr
    (by decide) rfl
  ⟨h.1, h.2.2 (by decide) (fun _ => rfl) rfl⟩

/-- C2 (amended, proved): in every completed valid execution, each processor's
`Stop` is invoked only after `runServer` has returned, and the context passed
to `Stop` carries the `ShutdownTimeout` deadline whenever `ShutdownTimeout` is
positive. (The Stop calls of distinct processors are mutually unordered; see
the counterexample.) -/
theorem c2_stop_after_server_with_deadline {n : Nat} (tr : List (REvent n))
    (_hc : completeTrace tr) (hv : validOrder tr) :
    (∀ i : Fin n, epos tr REvent.serverEnd < epos tr (REvent.stopCall i)) ∧
    (∀ t : Int, 0 < t → stopContextOf t = some t) := by
  refine ⟨fun i => lt_trans hv.1 (hv.2 i).1, fun t ht => ?_⟩
  simp [stopContextOf, ht]

/-- Evaluation witness for C2 at the one-processor trace. -/
theorem c2_stop_after_server_with_deadline_witness :
    epos sampleTrace1 REvent.serverEnd < epos sampleTrace1 (REvent.stopCall 0) ∧
    stopContextOf 30 = some 30 :=
  have h := c2_stop_after_server_with_deadline sampleTrace1 (by decide) (by decide)
  ⟨h.1 0, h.2 30 (by decide)⟩

/-- A completed valid execution with three processors (transaction-metrics
aggregator 0, span-metrics aggregator 1, tail sampler 2) in which the
aggregators' Stop calls complete before the sampler's Stop is even invoked. -/
def sampleTrace3 : List (REvent 3) :=
  [REvent.runEnd 0, REvent.runEnd 1, REvent.runEnd 2, REvent.serverEnd,
   REvent.serverStoppedClosed, REvent.stopCall 0, REvent.stopEnd 0,
   REvent.stopCall 1, REvent.stopEnd 1, REvent.stopCall 2, REvent.stopEnd 2]

/-- C2 counterexample: it is not the case that in every completed valid
execution the tail sampler (processor 2) is stopped before the aggregators
(processors 0 and 1): `sampleTrace3` is a valid execution in which aggregator
0's Stop call precedes the sampler's. -/
theorem c2_sampler_not_stopped_first :
    ¬ (∀ tr : List (REvent 3), completeTrace tr → validOrder tr →
        ∀ i : Fin 3, i.val < 2 →
          epos tr (REvent.stopCall 2) < epos tr (REvent.stopCall i)) := by
  intro h
  exact absurd (h sampleTrace3 (by decide) (by decide) 0 (by decide)) (by decide)

lemma filter_eq_remove_nil (l : List (String × Nat)) (nm : String) :
    (l.filter (fun e => e.1 != nm)).filter (fun e => e.1 == nm) = [] := by
  induction l with
  | nil => rfl
  | cons a t ih =>
    by_cases h : a.1 = nm
    · simp [List.filter_cons, h, ih]
    · simp [List.filter_cons, h, ih]

/-- A state with both process-wide singletons set. -/
def withSingletons (st : GlobalState) (db : BadgerDB) (s : ShardedReadWriter) : GlobalState :=
  { st with badgerDB := some db, storage := some s }

/-- Run equation for `newTailSamplingProcessor` from a state in which neither
the badger database nor the storage facade exists yet. -/
lemma newTailSamplingProcessor_fresh (env : Env) (st : GlobalState)
    (args : ServerParams) (es : ESClient) (db : BadgerDB) (sampler : Processor)
    (h3 : args.newElasticsearchClient args.config.sampling.tail.esConfig =
            Except.ok es)
    (h4 : st.badgerDB = none) (h5 : st.storage = none)
    (h6 : env.openBadger (pathsResolve env.dataDir tailSamplingStorageDir) (-1) =
            Except.ok db)
    (h7 : env.newSamplingProcessor
            (tailSamplingConfigBuilt args es db { db := db, codec := Codec.json }
              (pathsResolve env.dataDir tailSamplingStorageDir)) =
            Except.ok sampler) :
    newTailSamplingProcessor env st args =
      Except.ok (sampler,
        withSingletons st db { db := db, codec := Codec.json }) := by
  unfold newTailSamplingProcessor getBadgerDB getStorage withSingletons
  simp only [h3, h4, h5, h6, h7]
  rfl

/-- Run equation for `newTailSamplingProcessor` from a state in which both
singletons already exist. -/
lemma newTailSamplingProcessor_warm (env : Env) (st : GlobalState)
    (args : ServerParams) (es : ESClient) (db : BadgerDB)
    (rw0 : ShardedReadWriter) (sampler : Processor)
    (h3 : args.newElasticsearchClient args.config.sampling.tail.esConfig =
            Except.ok es)
    (h4 : st.badgerDB = some db) (h5 : st.storage = some rw0)
    (h7 : env.newSamplingProcessor
            (tailSamplingConfigBuilt args es db rw0
              (pathsResolve env.dataDir tailSamplingStorageDir)) =
            Except.ok sampler) :
    newTailSamplingProcessor env st args =
      Except.ok (sampler, { st with badgerDB := some db }) := by
  unfold newTailSamplingProcessor getBadgerDB getStorage
  simp only [h3, h4, h5, h7]
  rfl

/-- C6: wrapping the server twice in one process re-registers "txmetrics" and
"tail" without error or panic; after the second registration each name is
registered exactly once (replacement, not duplication) and both registries
are non-empty. -/
theorem c6_reregistration_is_safe (env : Env) (st : GlobalState)
    (args : ServerParams) (agg spanAgg sampler : Processor) (es : ESClient)
    (db : BadgerDB)
    (hEn : args.config.sampling.tail.enabled = true)
    (h1 : env.newTxAggregator (txAggregatorConfigOf args) = Except.ok agg)
    (h2 : env.newSpanAggregator (spanAggregatorConfigOf args) = Except.ok spanAgg)
    (h3 : args.newElasticsearchClient args.config.sampling.tail.esConfig =
            Except.ok es)
    (h4 : st.badgerDB = none)
    (h5 : st.storage = none)
    (h6 : env.openBadger (pathsResolve env.dataDir tailSamplingStorageDir) (-1) =
            Except.ok db)
    (h7 : env.newSamplingProcessor
            (tailSamplingConfigBuilt args es db { db := db, codec := Codec.json }
              (pathsResolve env.dataDir tailSamplingStorageDir)) =
            Except.ok sampler) :
    ∃ args1 procs1 st1 args2 procs2 st2,
      wrapServer env st args = Except.ok (args1, procs1, st1) ∧
      wrapServer env st1 args = Except.ok (args2, procs2, st2) ∧
      st2.aggregationRegistry.contains "txmetrics" = true ∧
      st2.samplingRegistry.contains "tail" = true ∧
      st2.aggregationRegistry.entries ≠ [] ∧
      st2.samplingRegistry.entries ≠ [] ∧
      st2.aggregationRegistry.entries.filter (fun en => en.1 == "txmetrics") =
        [("txmetrics", agg.collectMonitoring)] ∧
      st2.samplingRegistry.entries.filter (fun en => en.1 == "tail") =
        [("tail", sampler.collectMonitoring)] := by
  have hts1 : newTailSamplingProcessor env (stAfterTx st agg) args =
      Except.ok (sampler,
        withSingletons (stAfterTx st agg) db { db := db, codec := Codec.json }) :=
    newTailSamplingProcessor_fresh env (stAfterTx st agg) args es db sampler
      h3 h4 h5 h6 h7
  have hnp1 := newProcessors_enabled_eq env st args agg spanAgg sampler _
    hEn h1 h2 hts1
  have run1 : wrapServer env st args =
      Except.ok
        ({ args with batchProcessor := (chainedProcessBatch
            [agg.processBatch, spanAgg.processBatch, sampler.processBatch,
             args.batchProcessor]) },
         [{ name := txProcessorName, processor := agg },
          { name := spanProcessorName, processor := spanAgg },
          { name := tailProcessorName, processor := sampler }],
         stAfterTail
           (withSingletons (stAfterTx st agg) db { db := db, codec := Codec.json })
           sampler) := by
    unfold wrapServer
    rw [hnp1]
    rfl
  have hts2 : newTailSamplingProcessor env
      (stAfterTx (stAfterTail
        (withSingletons (stAfterTx st agg) db { db := db, codec := Codec.json })
        sampler) agg) args =
      Except.ok (sampler,
        { stAfterTx (stAfterTail
            (withSingletons (stAfterTx st agg) db { db := db, codec := Codec.json })
            sampler) agg with badgerDB := some db }) :=
    newTailSamplingProcessor_warm env _ args es db
      { db := db, codec := Codec.json } sampler h3 rfl rfl h7
  have hnp2 := newProcessors_enabled_eq env
    (stAfterTail
      (withSingletons (stAfterTx st agg) db { db := db, codec := Codec.json })
      sampler)
    args agg spanAgg sampler _ hEn h1 h2 hts2
  have run2 : wrapServer env
      (stAfterTail
        (withSingletons (stAfterTx st agg) db { db := db, codec := Codec.json })
        sampler) args =
      Except.ok
        ({ args with batchProcessor := (chainedProcessBatch
            [agg.processBatch, spanAgg.processBatch, sampler.processBatch,
             args.batchProcessor]) },
         [{ name := txProcessorName, processor := agg },
          { name := spanProcessorName, processor := spanAgg },
          { name := tailProcessorName, processor := sampler }],
         stAfterTail
           { stAfterTx (stAfterTail
               (withSingletons (stAfterTx st agg) db
                 { db := db, codec := Codec.json }) sampler) agg with
             badgerDB := some db } sampler) := by
    unfold wrapServer
    rw [hnp2]
    rfl
  refine ⟨_, _, _, _, _, _, run1, run2, ?_, ?_, ?_, ?_, ?_, ?_⟩
  · simp [stAfterTail, stAfterTx, withSingletons, Registry.contains]
  · simp [stAfterTail, stAfterTx, withSingletons, Registry.contains]
  · simp [stAfterTail, stAfterTx, withSingletons]
  · simp [stAfterTail, stAfterTx, withSingletons]
  · simp [stAfterTail, stAfterTx, withSingletons, Registry.remove,
      List.filter_cons, filter_eq_remove_nil]
  · simp [stAfterTail, stAfterTx, withSingletons, Registry.remove,
      List.filter_cons, filter_eq_remove_nil]

/-- Evaluation witness for C6: the double wrap at the concrete fixtures. -/
theorem c6_reregistration_is_safe_witness :
    ∃ args1 procs1 st1 args2 procs2 st2,
      wrapServer sampleEnv sampleState sampleArgs = Except.ok (args1, procs1, st1) ∧
      wrapServer sampleEnv st1 sampleArgs = Except.ok (args2, procs2, st2) ∧
      st2.aggregationRegistry.contains "txmetrics" = true ∧
      st2.samplingRegistry.contains "tail" = true ∧
      st2.aggregationRegistry.entries ≠ [] ∧
      st2.samplingRegistry.entries ≠ [] ∧
      st2.aggregationRegistry.entries.filter (fun en => en.1 == "txmetrics") =
        [("txmetrics", (sampleProcessor 1).collectMonitoring)] ∧
      st2.samplingRegistry.entries.filter (fun en => en.1 == "tail") =
        [("tail", (sampleProcessor 3).collectMonitoring)] :=
  c6_reregistration_is_safe sampleEnv sampleState sampleArgs (sampleProcessor 1)
    (sampleProcessor 2) (sampleProcessor 3) 7 sampleDB rfl rfl rfl rfl rfl rfl
    rfl rfl

end ApmServerMain
